import Mathlib

/-!
Verification of the mcp-guard gating proxy.

This file gives a shallow embedding of the core of the repository:

* the Block Rule Engine (src/rules.ts: shouldBlock, extractStrings),
* the Gated Operation Mirror tool handler (src/server.ts: createGatedServer),
* the Gate Registry (src/server.ts: getGate),
* the Session Router (src/server.ts: handleRequest),
* the Process Toggle Controller status check (dist/index.js: getRunningPid),

together with theorems settling the specified properties.  Network and
process effects (upstream connection attempts, HTTP responses, fetch,
signals) are modelled by explicit oracle parameters and by recording the
effects an execution performs in the returned value.
-/

namespace McpGuard

/-! ## JSON-like argument values

JavaScript argument structures are modelled as a tagged variant covering
every shape the engine distinguishes: string leaves, non-string scalars
(number, boolean, null / undefined — all ignored by extractStrings), arrays
and objects.  Object fields are kept as an ordered association list; the
walk visits field values in that order, matching Object.values.
-/

inductive JSValue where
  | str (s : String)
  | num (n : Int)
  | boolean (b : Bool)
  | null
  | arr (xs : List JSValue)
  | obj (fields : List (String × JSValue))
deriving Repr

/-! ## JavaScript string primitives

value.toLowerCase() and s.includes(p) over the characters of a string.
s.includes(p) is true exactly when p occurs as a contiguous substring of s;
the empty pattern occurs in every string.
-/

/-- p.isPrefixOf-style check over character lists: the first list is a
prefix of the second. -/
def charsPrefix : List Char → List Char → Bool
  | [], _ => true
  | _ :: _, [] => false
  | a :: ps, b :: ss => a == b && charsPrefix ps ss

/-- JavaScript s.includes(p) over character lists: scan every suffix of s
for p as a prefix. -/
def charsIncludes (s p : List Char) : Bool :=
  match s with
  | [] => p.isEmpty
  | _ :: rest => charsPrefix p s || charsIncludes rest p

/-- JavaScript String.prototype.toLowerCase (per-character lowering). -/
def jsToLower (s : String) : String :=
  ⟨s.data.map Char.toLower⟩

/-- JavaScript s.includes(p). -/
def jsIncludes (s p : String) : Bool :=
  charsIncludes s.data p.data

/-- The per-value test of the engine:
value.toLowerCase().includes(pattern.toLowerCase()). -/
def matchesCI (value pattern : String) : Bool :=
  jsIncludes (jsToLower value) (jsToLower pattern)

/-! ## Block Rule Engine (src/rules.ts) -/

/-- Result record of shouldBlock: \x7b blocked: boolean; pattern?: string \x7d. -/
structure BlockResult where
  blocked : Bool
  pattern : Option String
deriving Repr, DecidableEq

mutual

/-- extractStrings / walk from src/rules.ts: collect every string-typed
leaf, descending into array elements and object values in order; numbers,
booleans and null are skipped. -/
def extractStrings : JSValue → List String
  | .str s => [s]
  | .num _ => []
  | .boolean _ => []
  | .null => []
  | .arr xs => extractStringsList xs
  | .obj fs => extractStringsFields fs

/-- val.forEach(walk) over an array. -/
def extractStringsList : List JSValue → List String
  | [] => []
  | v :: vs => extractStrings v ++ extractStringsList vs

/-- Object.values(val).forEach(walk) over an object. -/
def extractStringsFields : List (String × JSValue) → List String
  | [] => []
  | (_, v) :: fs => extractStrings v ++ extractStringsFields fs

end

/-- The inner loop of shouldBlock: scan the collected values, in order,
for one matching the given pattern. -/
def scanValues (pattern : String) : List String → Bool
  | [] => false
  | v :: vs => if matchesCI v pattern then true else scanValues pattern vs

/-- The outer loop of shouldBlock: try each pattern in list order and
return at the first hit. -/
def scanPatterns (values : List String) : List String → BlockResult
  | [] => ⟨false, none⟩
  | p :: ps =>
    if scanValues p values then ⟨true, some p⟩ else scanPatterns values ps

/-- shouldBlock from src/rules.ts: flatten the arguments to their string
leaves, then scan patterns (outer) against values (inner), short-circuiting
on the first hit. -/
def shouldBlock (args : List (String × JSValue)) (patterns : List String) :
    BlockResult :=
  scanPatterns (extractStrings (.obj args)) patterns

/-- A string s is a string leaf reachable from a JSON value by recursively
descending through nested mappings and sequences.  This is the spec-side
notion of reachability C1 quantifies over. -/
inductive StringLeaf : JSValue → String → Prop where
  | str (s : String) : StringLeaf (.str s) s
  | arr {xs : List JSValue} {v : JSValue} {s : String} :
      v ∈ xs → StringLeaf v s → StringLeaf (.arr xs) s
  | obj {fs : List (String × JSValue)} {k : String} {v : JSValue}
      {s : String} :
      (k, v) ∈ fs → StringLeaf v s → StringLeaf (.obj fs) s


theorem scanValues_eq_any (p : String) (vs : List String) :
    scanValues p vs = vs.any fun v => matchesCI v p := by
  induction vs with
  | nil => rfl
  | cons v vs ih =>
      by_cases h : matchesCI v p = true <;>
        simp [scanValues, h, ih]

theorem scanPatterns_pattern_eq (vs : List String) (ps : List String) :
    (scanPatterns vs ps).pattern =
      ps.find? fun p => vs.any fun v => matchesCI v p := by
  induction ps with
  | nil => rfl
  | cons p ps ih =>
      by_cases h : (vs.any fun v => matchesCI v p) = true <;>
        simp [scanPatterns, scanValues_eq_any, h, ih, List.find?_cons]

theorem scanPatterns_blocked_eq (vs : List String) (ps : List String) :
    (scanPatterns vs ps).blocked =
      ps.any fun p => vs.any fun v => matchesCI v p := by
  induction ps with
  | nil => rfl
  | cons p ps ih =>
      by_cases h : (vs.any fun v => matchesCI v p) = true <;>
        simp [scanPatterns, scanValues_eq_any, h, ih]

mutual

theorem mem_extractStrings (j : JSValue) (s : String) :
    s ∈ extractStrings j ↔ StringLeaf j s := by
  cases j with
  | str t =>
      simp only [extractStrings, List.mem_singleton]
      constructor
      · rintro rfl; exact .str _
      · rintro ⟨⟩; rfl
  | num n => simp only [extractStrings, List.not_mem_nil, false_iff]
             intro h; nomatch h
  | boolean b => simp only [extractStrings, List.not_mem_nil, false_iff]
                 intro h; nomatch h
  | null => simp only [extractStrings, List.not_mem_nil, false_iff]
            intro h; nomatch h
  | arr xs =>
      rw [show extractStrings (.arr xs) = extractStringsList xs from rfl,
        mem_extractStringsList xs s]
      constructor
      · rintro ⟨v, hv, hl⟩; exact .arr hv hl
      · rintro ⟨⟩; next v hv hl => exact ⟨v, hv, hl⟩
  | obj fs =>
      rw [show extractStrings (.obj fs) = extractStringsFields fs from rfl,
        mem_extractStringsFields fs s]
      constructor
      · rintro ⟨k, v, hv, hl⟩; exact .obj hv hl
      · rintro ⟨⟩; next k v hv hl => exact ⟨k, v, hv, hl⟩

theorem mem_extractStringsList (xs : List JSValue) (s : String) :
    s ∈ extractStringsList xs ↔ ∃ v ∈ xs, StringLeaf v s := by
  cases xs with
  | nil => simp [extractStringsList]
  | cons v vs =>
      rw [show extractStringsList (v :: vs) =
        extractStrings v ++ extractStringsList vs from rfl]
      simp only [List.mem_append, mem_extractStrings v s,
        mem_extractStringsList vs s, List.mem_cons]
      constructor
      · rintro (h | ⟨w, hw, hl⟩)
        · exact ⟨v, Or.inl rfl, h⟩
        · exact ⟨w, Or.inr hw, hl⟩
      · rintro ⟨w, (rfl | hw), hl⟩
        · exact Or.inl hl
        · exact Or.inr ⟨w, hw, hl⟩

theorem mem_extractStringsFields (fs : List (String × JSValue)) (s : String) :
    s ∈ extractStringsFields fs ↔ ∃ k v, (k, v) ∈ fs ∧ StringLeaf v s := by
  cases fs with
  | nil => simp [extractStringsFields]
  | cons kv fs =>
      obtain ⟨k, v⟩ := kv
      rw [show extractStringsFields ((k, v) :: fs) =
        extractStrings v ++ extractStringsFields fs from rfl]
      simp only [List.mem_append, mem_extractStrings v s,
        mem_extractStringsFields fs s, List.mem_cons, Prod.mk.injEq]
      constructor
      · rintro (h | ⟨k2, v2, hv, hl⟩)
        · exact ⟨k, v, Or.inl ⟨rfl, rfl⟩, h⟩
        · exact ⟨k2, v2, Or.inr hv, hl⟩
      · rintro ⟨k2, v2, (⟨rfl, rfl⟩ | hv), hl⟩
        · exact Or.inl hl
        · exact Or.inr ⟨k2, v2, hv, hl⟩

end


/-- C1: shouldBlock returns blocked=true exactly when some string leaf
reachable by recursively descending through nested mappings and sequences
of the arguments case-insensitively contains some configured pattern; the
reported pattern is the first matching pattern in pattern-list order
(List.find? is first-hit search), and blocked=false — with no reported
pattern — otherwise, in particular when the pattern list is empty. -/
theorem shouldBlock_spec (args : List (String × JSValue)) (patterns : List String) :
    ((shouldBlock args patterns).blocked = true ↔
       ∃ p ∈ patterns, ∃ s, StringLeaf (JSValue.obj args) s ∧ matchesCI s p = true)
  ∧ ((shouldBlock args patterns).pattern =
       patterns.find? fun p =>
         (extractStrings (JSValue.obj args)).any fun s => matchesCI s p)
  ∧ ((shouldBlock args patterns).blocked =
       ((shouldBlock args patterns).pattern).isSome) := by
  refine ⟨?_, ?_, ?_⟩
  · rw [shouldBlock, scanPatterns_blocked_eq, List.any_eq_true]
    constructor
    · rintro ⟨p, hp, hv⟩
      rw [List.any_eq_true] at hv
      obtain ⟨v, hv, hm⟩ := hv
      exact ⟨p, hp, v, (mem_extractStrings _ _).mp hv, hm⟩
    · rintro ⟨p, hp, v, hv, hm⟩
      refine ⟨p, hp, ?_⟩
      rw [List.any_eq_true]
      exact ⟨v, (mem_extractStrings _ _).mpr hv, hm⟩
  · rw [shouldBlock, scanPatterns_pattern_eq]
  · rw [shouldBlock, scanPatterns_blocked_eq, scanPatterns_pattern_eq]
    rw [Bool.eq_iff_iff, List.any_eq_true, List.find?_isSome]


/-- The empty pattern is contained in every string (JavaScript
s.includes with an empty search string is always true). -/
theorem charsIncludes_nil (s : List Char) : charsIncludes s [] = true := by
  cases s <;> simp [charsIncludes, charsPrefix, List.isEmpty]

/-- Every value matches the empty pattern case-insensitively. -/
theorem matchesCI_empty (v : String) : matchesCI v "" = true := by
  simp [matchesCI, jsIncludes, jsToLower, charsIncludes_nil]

/-- C10: the engine considers only string-typed leaves — numeric, boolean
and null leaves contribute no collected values, so arguments
amount: 123 with pattern "123" are not blocked; and the empty-string
pattern blocks every argument structure that has at least one string
leaf. -/
theorem shouldBlock_string_leaves_only :
    (∀ n : Int, extractStrings (.num n) = [])
  ∧ (∀ b : Bool, extractStrings (.boolean b) = [])
  ∧ extractStrings .null = []
  ∧ shouldBlock [("amount", .num 123)] ["123"] = ⟨false, none⟩
  ∧ ∀ args : List (String × JSValue),
      extractStrings (.obj args) ≠ [] →
        (shouldBlock args [""]).blocked = true := by
  refine ⟨fun n => rfl, fun b => rfl, rfl, by decide, fun args hne => ?_⟩
  rw [shouldBlock, scanPatterns_blocked_eq, List.any_eq_true]
  obtain ⟨v, hv⟩ := List.exists_mem_of_ne_nil _ hne
  exact ⟨"", List.mem_singleton_self _,
    List.any_eq_true.mpr ⟨v, hv, matchesCI_empty v⟩⟩

/-- Witness for C10 at a concrete argument structure with a string leaf. -/
theorem shouldBlock_string_leaves_only_witness :
    extractStrings (.obj [("q", .str "hi")]) ≠ [] ∧
    (shouldBlock [("q", .str "hi")] [""]).blocked = true :=
  ⟨by decide,
    shouldBlock_string_leaves_only.2.2.2.2 [("q", .str "hi")] (by decide)⟩

/-! ## Gate configuration (src/types.ts)

ServerConfig: url, optional enabled flag, optional block pattern list,
optional custom block message.  Absent optional fields are None.
-/

structure ServerConfig where
  url : String
  enabled : Option Bool := none
  block : Option (List String) := none
  blockMessage : Option String := none
deriving Repr, DecidableEq

/-! ## Gated Operation Mirror (src/server.ts: createGatedServer)

The per-tool handler.  A content item models
\x7b type: "text", text: ... \x7d; the upstream callTool is an oracle
function from (tool name, arguments) to either a raised error (Except.error,
the catch branch) or an upstream result whose content and isError fields may
be absent (the ?? defaults in the source).  The handler outcome records,
besides the returned tool result, whether shouldBlock was consulted and the
list of upstream calls performed (name and argument payloads), so that
"the engine is never invoked" and "the upstream is never contacted" are
properties of the returned value.
-/

structure Content where
  type : String
  text : String
deriving Repr, DecidableEq

structure UpstreamResult where
  content : Option (List Content) := none
  isError : Option Bool := none
deriving Repr, DecidableEq

structure ToolResult where
  content : List Content
  isError : Bool
deriving Repr, DecidableEq

structure HandlerOutcome where
  result : ToolResult
  engineInvoked : Bool
  upstreamCalls : List (String × List (String × JSValue))
deriving Repr

/-- The guard condition of the handler:
gateConfig.enabled !== false && gateConfig.block?.length.
An absent block list is undefined (falsy) and an empty list has length 0
(falsy). -/
def blockingRequested (cfg : ServerConfig) : Bool :=
  (cfg.enabled != some false) &&
    (match cfg.block with
     | none => false
     | some l => !l.isEmpty)

/-- Relay of the upstream callTool outcome:
on success \x7b content: result.content ?? [], isError: result.isError ?? false \x7d,
on a raised error the catch branch builds an "Upstream error: ..." text
result with isError true. -/
def relayUpstream (r : Except String UpstreamResult) : ToolResult :=
  match r with
  | .ok res => ⟨res.content.getD [], res.isError.getD false⟩
  | .error msg => ⟨[⟨"text", "Upstream error: " ++ msg⟩], true⟩

/-- The block branch of the handler: message is config.blockMessage when
set, else the default naming the matched pattern; the returned text is the
message prefixed with the block marker glyph, and isError is true. -/
def blockedToolResult (cfg : ServerConfig) (r : BlockResult) : ToolResult :=
  let msg := cfg.blockMessage.getD
    ("Blocked: matched pattern \"" ++ r.pattern.getD "undefined" ++ "\"")
  ⟨[⟨"text", "⛔ " ++ msg⟩], true⟩

/-- The tool handler registered by createGatedServer for one upstream tool:
consult shouldBlock when blocking is requested, short-circuit blocked calls
without contacting the upstream, otherwise forward the tool name and
arguments verbatim and relay the outcome. -/
def handleToolCall (toolName : String) (cfg : ServerConfig)
    (upstream : String → List (String × JSValue) → Except String UpstreamResult)
    (args : List (String × JSValue)) : HandlerOutcome :=
  if blockingRequested cfg then
    let r := shouldBlock args (cfg.block.getD [])
    if r.blocked then
      ⟨blockedToolResult cfg r, true, []⟩
    else
      ⟨relayUpstream (upstream toolName args), true, [(toolName, args)]⟩
  else
    ⟨relayUpstream (upstream toolName args), false, [(toolName, args)]⟩

/-- C2: when blocking is active (enabled not explicitly false, non-empty
block list) and the engine reports blocked, the handler returns a terminal
error result whose message is config.blockMessage when set and otherwise
the default message naming the matched pattern (the text carries the block
marker glyph prefix), and the upstream callTool is never invoked. -/
theorem mirror_blocked (toolName : String) (cfg : ServerConfig)
    (upstream : String → List (String × JSValue) → Except String UpstreamResult)
    (args : List (String × JSValue)) (l : List String)
    (hen : cfg.enabled ≠ some false)
    (hbl : cfg.block = some l) (hne : l ≠ [])
    (hblocked : (shouldBlock args l).blocked = true) :
    (handleToolCall toolName cfg upstream args).result.isError = true
  ∧ (handleToolCall toolName cfg upstream args).result.content =
      [⟨"text", "⛔ " ++ cfg.blockMessage.getD
        ("Blocked: matched pattern \"" ++
          ((shouldBlock args l).pattern.getD "undefined") ++ "\"")⟩]
  ∧ (handleToolCall toolName cfg upstream args).upstreamCalls = [] := by
  have hreq : blockingRequested cfg = true := by
    simp [blockingRequested, hbl, hne, hen]
  simp [handleToolCall, hreq, hbl, hblocked, blockedToolResult]

/-- Witness for C2: a blocked SQL call with a configured block message. -/
theorem mirror_blocked_witness :
    (handleToolCall "execute_sql"
        ⟨"http://up", none, some ["drop"], some "no"⟩
        (fun _ _ => Except.error "unreachable")
        [("query", JSValue.str "DROP TABLE x")]).result.isError = true
  ∧ (handleToolCall "execute_sql"
        ⟨"http://up", none, some ["drop"], some "no"⟩
        (fun _ _ => Except.error "unreachable")
        [("query", JSValue.str "DROP TABLE x")]).result.content =
      [⟨"text", "⛔ " ++
        (ServerConfig.mk "http://up" none (some ["drop"]) (some "no")
          ).blockMessage.getD
        ("Blocked: matched pattern \"" ++
          ((shouldBlock [("query", JSValue.str "DROP TABLE x")] ["drop"]
            ).pattern.getD "undefined") ++ "\"")⟩]
  ∧ (handleToolCall "execute_sql"
        ⟨"http://up", none, some ["drop"], some "no"⟩
        (fun _ _ => Except.error "unreachable")
        [("query", JSValue.str "DROP TABLE x")]).upstreamCalls = [] :=
  mirror_blocked "execute_sql" ⟨"http://up", none, some ["drop"], some "no"⟩
    (fun _ _ => Except.error "unreachable")
    [("query", JSValue.str "DROP TABLE x")] ["drop"]
    (by decide) rfl (by decide) (by decide)

/-- C3: with enabled explicitly false, or an absent or empty block list,
the handler never consults the Block Rule Engine and forwards the call with
the operation name and arguments unchanged, returning the relayed upstream
outcome. -/
theorem mirror_passthrough (toolName : String) (cfg : ServerConfig)
    (upstream : String → List (String × JSValue) → Except String UpstreamResult)
    (args : List (String × JSValue))
    (h : cfg.enabled = some false ∨ cfg.block = none ∨ cfg.block = some []) :
    handleToolCall toolName cfg upstream args =
      ⟨relayUpstream (upstream toolName args), false, [(toolName, args)]⟩ := by
  have hreq : blockingRequested cfg = false := by
    rcases h with h | h | h <;> simp [blockingRequested, h]
  simp [handleToolCall, hreq]

/-- Witness for C3: a disabled gate with block patterns that would match
forwards the matching call untouched. -/
theorem mirror_passthrough_witness :
    handleToolCall "execute_sql"
      ⟨"http://up", some false, some ["drop"], none⟩
      (fun _ _ => Except.ok ⟨some [⟨"text", "done"⟩], some false⟩)
      [("query", JSValue.str "DROP TABLE x")] =
      ⟨relayUpstream (Except.ok ⟨some [⟨"text", "done"⟩], some false⟩),
        false,
        [("execute_sql", [("query", JSValue.str "DROP TABLE x")])]⟩ :=
  mirror_passthrough "execute_sql"
    ⟨"http://up", some false, some ["drop"], none⟩
    (fun _ _ => Except.ok ⟨some [⟨"text", "done"⟩], some false⟩)
    [("query", JSValue.str "DROP TABLE x")] (Or.inl rfl)

/-- C4: on a forwarded call the handler relays the content and error
flag of an upstream success unchanged, and converts a raised upstream failure
into a well-formed terminal error result; being a total function into
ToolResult, the handler itself never raises. -/
theorem mirror_relay (toolName : String) (cfg : ServerConfig)
    (upstream : String → List (String × JSValue) → Except String UpstreamResult)
    (args : List (String × JSValue))
    (hfwd : blockingRequested cfg = false ∨
      (shouldBlock args (cfg.block.getD [])).blocked = false) :
    ((handleToolCall toolName cfg upstream args).result =
        relayUpstream (upstream toolName args))
  ∧ (∀ c e, upstream toolName args = Except.ok ⟨some c, some e⟩ →
      (handleToolCall toolName cfg upstream args).result = ⟨c, e⟩)
  ∧ (∀ msg, upstream toolName args = Except.error msg →
      (handleToolCall toolName cfg upstream args).result =
        ⟨[⟨"text", "Upstream error: " ++ msg⟩], true⟩) := by
  have hres : (handleToolCall toolName cfg upstream args).result =
      relayUpstream (upstream toolName args) := by
    rcases hfwd with h | h
    · simp [handleToolCall, h]
    · cases hb : blockingRequested cfg <;> simp [handleToolCall, hb, h]
  refine ⟨hres, fun c e hup => ?_, fun msg hup => ?_⟩
  · rw [hres, hup]; rfl
  · rw [hres, hup]; rfl

/-- Witness for C4: an upstream failure on a gate with no block list is
converted into a terminal error result. -/
theorem mirror_relay_witness :
    (handleToolCall "fetch_rows" ⟨"http://up", none, none, none⟩
        (fun _ _ => Except.error "socket hang up") []).result =
      ⟨[⟨"text", "Upstream error: " ++ "socket hang up"⟩], true⟩ :=
  (mirror_relay "fetch_rows" ⟨"http://up", none, none, none⟩
    (fun _ _ => Except.error "socket hang up") [] (Or.inl rfl)).2.2
    "socket hang up" rfl

/-! ## Gate Registry (src/server.ts: getGate, connectUpstream)

A Gate is the live upstream client handle (identified by an abstract id)
plus the tool-name snapshot taken at connect time.  The gates map is an
ordered association list mirroring the JavaScript Map; connectUpstream is a
network action, passed in as the Except-valued outcome the await would
produce for this call.
-/

structure GateState where
  gateId : Nat
  tools : List String
deriving Repr, DecidableEq

/-- gates.has / gates.get on the registry map. -/
def gatesLookup (gates : List (String × GateState)) (name : String) :
    Option GateState :=
  match gates with
  | [] => none
  | (n, g) :: rest => if n == name then some g else gatesLookup rest name

/-- gates.set: replace the entry for the key when present, else append. -/
def gatesSet (gates : List (String × GateState)) (name : String)
    (g : GateState) : List (String × GateState) :=
  match gates with
  | [] => [(name, g)]
  | (n, g0) :: rest =>
    if n == name then (n, g) :: rest else (n, g0) :: gatesSet rest name g

/-- getGate from src/server.ts: return the cached Gate when present;
otherwise the connect outcome decides — on success cache and return the new
Gate, on failure the raised error propagates before gates.set runs, so the
map is returned unchanged. -/
def getGate (gates : List (String × GateState)) (name : String)
    (connectOutcome : Except String GateState) :
    Except String GateState × List (String × GateState) :=
  match gatesLookup gates name with
  | some g => (Except.ok g, gates)
  | none =>
    match connectOutcome with
    | Except.ok g => (Except.ok g, gatesSet gates name g)
    | Except.error e => (Except.error e, gates)

/-- C5: a cached gate name is returned as-is with the registry untouched,
whatever the connect oracle would do (no new connection attempt); on a
failed connection for an uncached name the registry is unchanged — nothing
is cached for that name — and a later call for the same name, facing the
same registry, connects from scratch and caches only then. -/
theorem getGate_cache_spec (gates : List (String × GateState))
    (name : String) :
    (∀ g, gatesLookup gates name = some g →
        ∀ c, getGate gates name c = (Except.ok g, gates))
  ∧ (gatesLookup gates name = none →
        (∀ e, getGate gates name (Except.error e) = (Except.error e, gates))
      ∧ (∀ g, getGate gates name (Except.ok g) =
          (Except.ok g, gatesSet gates name g))) := by
  refine ⟨fun g hg c => ?_, fun hn => ⟨fun e => ?_, fun g => ?_⟩⟩
  · simp [getGate, hg]
  · simp [getGate, hn]
  · simp [getGate, hn]

/-- Witness for C5: a one-entry registry hit ignores a failing connect
oracle; an empty registry propagates the failure and stays empty. -/
theorem getGate_cache_spec_witness :
    getGate [("db", ⟨7, ["query"]⟩)] "db" (Except.error "refused") =
      (Except.ok ⟨7, ["query"]⟩, [("db", ⟨7, ["query"]⟩)])
  ∧ getGate [] "db" (Except.error "refused") = (Except.error "refused", []) :=
  ⟨(getGate_cache_spec [("db", ⟨7, ["query"]⟩)] "db").1 ⟨7, ["query"]⟩
      (by decide) (Except.error "refused"),
    ((getGate_cache_spec [] "db").2 rfl).1 "refused"⟩

/-! ## Concurrent first-requests to one gate name (C6)

getGate awaits connectUpstream between the gates.has check and gates.set,
so a second request entering while the first connect is in flight also
misses the cache and starts its own connect.  The model runs two requests
for the same unconnected name as interleaved two-step processes: step one
is the synchronous prefix (cache check, and on a miss the start of
connectUpstream — counted as a connection attempt); step two is the
resumption after the await (gates.set with the freshly built GateState,
then return it).  Each connect builds a distinct upstream client, numbered
by the attempt counter; cached is the registry entry for the contested
name.  A scheduler word over the two callers fixes the interleaving; both
orders below are reachable in the event loop.
-/

inductive Phase where
  | start
  | connecting (id : Nat)
  | done (id : Nat)
deriving Repr, DecidableEq

structure RaceState where
  cached : Option Nat
  attempts : Nat
  reqA : Phase
  reqB : Phase
deriving Repr, DecidableEq

/-- One scheduler step of a single request against the shared registry. -/
def phaseStep (cached : Option Nat) (attempts : Nat) :
    Phase → Option Nat × Nat × Phase
  | .start =>
    match cached with
    | some g => (some g, attempts, .done g)
    | none => (none, attempts + 1, .connecting attempts)
  | .connecting id => (some id, attempts, .done id)
  | .done id => (cached, attempts, .done id)

inductive Caller where
  | A
  | B
deriving Repr, DecidableEq

/-- Run the scheduled caller for one step. -/
def raceStep (s : RaceState) : Caller → RaceState
  | .A =>
    match phaseStep s.cached s.attempts s.reqA with
    | (c, a, ph) => ⟨c, a, ph, s.reqB⟩
  | .B =>
    match phaseStep s.cached s.attempts s.reqB with
    | (c, a, ph) => ⟨c, a, s.reqA, ph⟩

/-- Run a schedule from the unconnected initial state. -/
def runRace (sched : List Caller) : RaceState :=
  sched.foldl raceStep ⟨none, 0, .start, .start⟩

/-- C6 (refuted): run sequentially, the two first-requests make one
connection attempt and observe the same gate — but under the interleaving
where both requests pass the cache check before either connect resolves,
the code makes two connection attempts and the callers observe different
gates, contradicting single-flight. -/
theorem getGate_race_two_attempts :
    ((runRace [.A, .A, .B, .B]).attempts = 1
      ∧ (runRace [.A, .A, .B, .B]).reqA = Phase.done 0
      ∧ (runRace [.A, .A, .B, .B]).reqB = Phase.done 0)
  ∧ ((runRace [.A, .B, .A, .B]).attempts = 2
      ∧ (runRace [.A, .B, .A, .B]).reqA = Phase.done 0
      ∧ (runRace [.A, .B, .A, .B]).reqB = Phase.done 1) := by
  decide

/-! ## Session Router (src/server.ts: handleRequest)

The process-wide config maps gate names to ServerConfig entries
(Object.keys order = insertion order of the association list).  A request
is its method, the URL pathname, and the mcp-session-id header when
present.  The Session record in the source carries the gate name plus the
McpServer and transport handles; the latter two are external library
objects, so a session entry is modelled by its gate-name binding.  The two
network effects of the new-session flow are oracles: connectOutcome is what
awaiting connectUpstream would produce, and newSid is the session id the
transport mints when the initialize handshake completes (none when the
delivered request does not initialize a session).
-/

structure GuardConfig where
  port : Nat
  servers : List (String × ServerConfig)
deriving Repr, DecidableEq

/-- config.servers[gateName] lookup. -/
def serversLookup (servers : List (String × ServerConfig)) (name : String) :
    Option ServerConfig :=
  match servers with
  | [] => none
  | (n, c) :: rest => if n == name then some c else serversLookup rest name

/-- Object.keys(config.servers). -/
def serverNames (config : GuardConfig) : List String :=
  config.servers.map Prod.fst

/-- url.pathname.replace of one leading slash. -/
def stripLeadingSlash : List Char → List Char
  | '/' :: rest => rest
  | cs => cs

/-- .replace of one trailing slash. -/
def stripTrailingSlash (cs : List Char) : List Char :=
  (stripLeadingSlash cs.reverse).reverse

/-- The gate name extracted from the URL pathname. -/
def gateNameOf (pathname : String) : String :=
  ⟨stripTrailingSlash (stripLeadingSlash pathname.data)⟩

structure Request where
  method : String
  pathname : String
  sessionId : Option String
deriving Repr, DecidableEq

structure SessionEntry where
  gateName : String
deriving Repr, DecidableEq

structure RouterState where
  sessions : List (String × SessionEntry)
  gates : List (String × GateState)
deriving Repr, DecidableEq

/-- sessions.has / sessions.get. -/
def sessionsLookup (sessions : List (String × SessionEntry)) (sid : String) :
    Option SessionEntry :=
  match sessions with
  | [] => none
  | (n, e) :: rest => if n == sid then some e else sessionsLookup rest sid

/-- sessions.set. -/
def sessionsSet (sessions : List (String × SessionEntry)) (sid : String)
    (e : SessionEntry) : List (String × SessionEntry) :=
  match sessions with
  | [] => [(sid, e)]
  | (n, e0) :: rest =>
    if n == sid then (n, e) :: rest else (n, e0) :: sessionsSet rest sid e

/-- sessions.delete. -/
def sessionsDelete (sessions : List (String × SessionEntry)) (sid : String) :
    List (String × SessionEntry) :=
  match sessions with
  | [] => []
  | (n, e0) :: rest =>
    if n == sid then rest else (n, e0) :: sessionsDelete rest sid

/-- The response each branch of handleRequest produces. -/
inductive RouteOutcome where
  /-- 200 \x7b status: "ok", gates \x7d on the root path. -/
  | rootStatus (gates : List String)
  /-- 404 \x7b error: "Unknown gate: ...", available \x7d. -/
  | unknownGate (error : String) (available : List String)
  /-- DELETE delegated to the existing session transport, entry dropped. -/
  | sessionDeleted (sid : String)
  /-- Other request delegated to the existing session transport. -/
  | sessionContinued (sid : String)
  /-- 404 jsonrpc envelope, code -32001, "Session not found". -/
  | sessionNotFound
  /-- 400 "New sessions must start with POST". -/
  | mustStartWithPost
  /-- 502 "Failed to connect to upstream: ...". -/
  | upstreamFailed (error : String)
  /-- New-session flow delivered the request to a fresh transport. -/
  | sessionInitiated (gateName : String) (sid : Option String)
deriving Repr, DecidableEq

/-- handleRequest from src/server.ts: route on gate name, then session id,
then method, reaching the new-session flow only for a sessionless POST to a
configured gate. -/
def handleRequest (config : GuardConfig) (st : RouterState) (req : Request)
    (connectOutcome : Except String GateState) (newSid : Option String) :
    RouteOutcome × RouterState :=
  let gateName := gateNameOf req.pathname
  if gateName == "" then
    (.rootStatus (serverNames config), st)
  else
    match serversLookup config.servers gateName with
    | none =>
      (.unknownGate ("Unknown gate: \"" ++ gateName ++ "\"")
        (serverNames config), st)
    | some _ =>
      match req.sessionId with
      | some sid =>
        if (sessionsLookup st.sessions sid).isSome then
          if req.method == "DELETE" then
            (.sessionDeleted sid,
              { st with sessions := sessionsDelete st.sessions sid })
          else
            (.sessionContinued sid, st)
        else
          (.sessionNotFound, st)
      | none =>
        if req.method != "POST" then
          (.mustStartWithPost, st)
        else
          match getGate st.gates gateName connectOutcome with
          | (Except.error msg, gates2) =>
            (.upstreamFailed ("Failed to connect to upstream: " ++ msg),
              { st with gates := gates2 })
          | (Except.ok _, gates2) =>
            match newSid with
            | some sid =>
              (.sessionInitiated gateName (some sid),
                ⟨sessionsSet st.sessions sid ⟨gateName⟩, gates2⟩)
            | none =>
              (.sessionInitiated gateName none, { st with gates := gates2 })

/-- C7: a request whose path names a gate that is not configured gets the
404 unknown-gate response listing the configured gate names, and neither
the Gate registry nor the Session table changes. -/
theorem handleRequest_unknown_gate (config : GuardConfig) (st : RouterState)
    (req : Request) (connectOutcome : Except String GateState)
    (newSid : Option String)
    (hname : gateNameOf req.pathname ≠ "")
    (hmiss : serversLookup config.servers (gateNameOf req.pathname) = none) :
    handleRequest config st req connectOutcome newSid =
      (.unknownGate ("Unknown gate: \"" ++ gateNameOf req.pathname ++ "\"")
        (serverNames config), st) := by
  simp [handleRequest, hmiss, hname]

/-- Witness for C7: a request for an unconfigured gate against a config
with one gate and a non-empty router state. -/
theorem handleRequest_unknown_gate_witness :
    handleRequest ⟨6427, [("db", ⟨"http://up", none, none, none⟩)]⟩
      ⟨[("s1", ⟨"db"⟩)], [("db", ⟨7, []⟩)]⟩
      ⟨"POST", "/nope", none⟩ (Except.error "refused") (some "s2") =
      (.unknownGate ("Unknown gate: \"" ++ gateNameOf "/nope" ++ "\"")
        (serverNames ⟨6427, [("db", ⟨"http://up", none, none, none⟩)]⟩),
        ⟨[("s1", ⟨"db"⟩)], [("db", ⟨7, []⟩)]⟩) :=
  handleRequest_unknown_gate ⟨6427, [("db", ⟨"http://up", none, none, none⟩)]⟩
    ⟨[("s1", ⟨"db"⟩)], [("db", ⟨7, []⟩)]⟩
    ⟨"POST", "/nope", none⟩ (Except.error "refused") (some "s2")
    (by decide) (by decide)

/-- C8: a request to a configured gate carrying a session id absent from
the Session table gets the protocol-level session-not-found re-initialize
envelope, with no new session created and the router state untouched. -/
theorem handleRequest_unknown_session (config : GuardConfig)
    (st : RouterState) (req : Request)
    (connectOutcome : Except String GateState) (newSid : Option String)
    (sid : String)
    (hname : gateNameOf req.pathname ≠ "")
    (hhit : (serversLookup config.servers (gateNameOf req.pathname)).isSome)
    (hsid : req.sessionId = some sid)
    (hnosess : sessionsLookup st.sessions sid = none) :
    handleRequest config st req connectOutcome newSid =
      (.sessionNotFound, st) := by
  obtain ⟨cfg, hcfg⟩ := Option.isSome_iff_exists.mp hhit
  simp [handleRequest, hname, hcfg, hsid, hnosess]

/-- Witness for C8: a continuation request with a stale session id on a
configured gate. -/
theorem handleRequest_unknown_session_witness :
    handleRequest ⟨6427, [("db", ⟨"http://up", none, none, none⟩)]⟩
      ⟨[("s1", ⟨"db"⟩)], []⟩
      ⟨"POST", "/db", some "gone"⟩ (Except.error "refused") none =
      (.sessionNotFound, ⟨[("s1", ⟨"db"⟩)], []⟩) :=
  handleRequest_unknown_session ⟨6427, [("db", ⟨"http://up", none, none, none⟩)]⟩
    ⟨[("s1", ⟨"db"⟩)], []⟩
    ⟨"POST", "/db", some "gone"⟩ (Except.error "refused") none "gone"
    (by decide) (by decide) rfl (by decide)

/-! ## Process Toggle Controller status check (dist/index.js: getRunningPid)

The lock record is the contents of the pid file when the file exists (the pid is
written as decimal digits by turnOn, and parseInt of the trimmed contents
is modelled by String.toNat? after trim).  Process liveness — the
process.kill(pid, 0) probe, which delivers no signal — is the alive oracle,
and whether the status endpoint of the proxy responds successfully within the
fetch timeout is the statusRespOk oracle.  The returned record carries the
detected pid (none means the controller treats the proxy as off), the lock
record after the check (none when the check unlinked it), and every pid a
termination signal was sent to during the check.
-/

structure ToggleStatus where
  runningPid : Option Nat
  lockAfter : Option String
  termSignalsSent : List Nat
deriving Repr, DecidableEq

/-- .trim over the characters of the contents. -/
def trimChars (cs : List Char) : List Char :=
  ((cs.dropWhile Char.isWhitespace).reverse.dropWhile Char.isWhitespace).reverse

/-- parseInt(contents.trim(), 10), restricted to the canonical all-digit
contents turnOn writes (String(child.pid)); other contents are NaN. -/
def parsedLockPid (contents : String) : Option Nat :=
  let cs := trimChars contents.data
  if cs.isEmpty then none
  else if cs.all Char.isDigit then
    some (cs.foldl (fun n c => n * 10 + (c.toNat - 48)) 0)
  else none

/-- getRunningPid from dist/index.js: no lock record means off; an
unparsable or dead pid, and a live pid whose server does not answer, are
stale — unlink the record and report off; only a live pid with a responding
server is reported as running, leaving the record in place.  No branch
sends a termination signal. -/
def getRunningPid (lock : Option String) (alive : Nat → Bool)
    (statusRespOk : Bool) : ToggleStatus :=
  match lock with
  | none => ⟨none, none, []⟩
  | some contents =>
    match parsedLockPid contents with
    | none => ⟨none, none, []⟩
    | some pid =>
      if alive pid then
        if statusRespOk then ⟨some pid, some contents, []⟩
        else ⟨none, none, []⟩
      else ⟨none, none, []⟩

/-- turnOff from dist/index.js, for contrast: it is the branch that does
send SIGTERM to the recorded pid and unlink the record. -/
def turnOff (pid : Nat) : ToggleStatus :=
  ⟨none, none, [pid]⟩

/-- C9: when the lock record holds a pid that is not alive, or a pid whose
status endpoint does not respond successfully within the timeout, the
status check deletes the lock record and reports the proxy as off, sending
no termination signal to the recorded pid. -/
theorem getRunningPid_stale (contents : String) (pid : Nat)
    (alive : Nat → Bool) (statusRespOk : Bool)
    (hp : parsedLockPid contents = some pid)
    (hstale : alive pid = false ∨ statusRespOk = false) :
    getRunningPid (some contents) alive statusRespOk = ⟨none, none, []⟩ := by
  rcases hstale with h | h
  · simp [getRunningPid, hp, h]
  · cases ha : alive pid <;> simp [getRunningPid, hp, h, ha]

/-- Witness for C9: a lock record naming a dead pid is removed and the
proxy reported off with no signal sent. -/
theorem getRunningPid_stale_witness :
    (parsedLockPid "4242" = some 4242)
  ∧ getRunningPid (some "4242") (fun _ => false) true = ⟨none, none, []⟩ :=
  ⟨by decide,
    getRunningPid_stale "4242" 4242 (fun _ => false) true (by decide)
      (Or.inl rfl)⟩

end McpGuard
